import Mathlib

/-!
# Plasma child-chain node: deposit tester and storage bootstrap

A shallow embedding of `tester/deposit/integration.go` and `db/db.go`.

Conventions of the embedding

* A Go pointer `*T` is an `Option T`: `none` is `nil`, `some v` is a pointer
  to the value `v`.  A Go `error` and a Go interface value are `Option`s in
  the same way.
* `*big.Int` is `Option Int` (a `big.Int` is a signed integer of any size).
  A Go `int` is an `Int`; no arithmetic is done on it here.
* `[]byte` is `List UInt8`; `[]byte{}` is `[]`.
* Calls to collaborators outside the two files (key loading, the root-chain
  client, the key-value store, the logger) are recorded, in order, in a
  trace of `Event`s.  What a collaborator hands back is read from a `World`.
-/

namespace Plasma

/-! ## Data model -/

/-- A `common.Address` (twenty bytes), kept as the number the bytes spell. -/
structure Address where
  val : Nat
  deriving DecidableEq, Repr

/-- Modelled from the spec: the type `chain.Input` (package `chain` is not
part of the two files).  "Input: a reference to a prior output:
`{BlkNum, TxIdx, OutIdx}`." -/
structure Input where
  BlkNum : Nat
  TxIdx : Nat
  OutIdx : Nat
  deriving DecidableEq, Repr

/-- The type `chain.Output`, with the two fields the literal in
`createDepositTx` sets: `NewOwner` (a `common.Address`) and `Amount`
(a `*big.Int`). -/
structure Output where
  NewOwner : Address
  Amount : Option Int
  deriving DecidableEq, Repr

/-- The type `chain.Transaction`, with the nine fields the literal in
`createTestTransaction` sets. -/
structure Transaction where
  Input0 : Option Input
  Input1 : Option Input
  Sig0 : List UInt8
  Sig1 : List UInt8
  Output0 : Option Output
  Output1 : Option Output
  Fee : Option Int
  BlkNum : Nat
  TxIdx : Nat
  deriving DecidableEq, Repr

/-- Modelled from the spec: `chain.ZeroInput()` (package `chain` is not part
of the two files).  "A distinguished zero input value denotes no input";
"unused slots hold the zero input/zero output sentinel, never a nil/absent
value".  So the call hands back a non-nil pointer to the all-zero reference. -/
def ZeroInput : Option Input :=
  some { BlkNum := 0, TxIdx := 0, OutIdx := 0 }

/-- Modelled from the spec: `chain.ZeroOutput()` (package `chain` is not part
of the two files).  The "zero output sentinel", never nil: a non-nil pointer
to the output with the zero address and amount zero. -/
def ZeroOutput : Option Output :=
  some { NewOwner := { val := 0 }, Amount := some 0 }

/-- Modelled from the spec: `util.NewInt` (package `util` is not part of the
two files).  "`Output0` carries the deposited value": the machine integer is
turned into the big integer of the same value, behind a non-nil pointer. -/
def NewInt (i : Int) : Option Int :=
  some i

/-- Modelled from the spec: `IsDeposit(tx)`, "true iff both inputs are the
zero-input sentinel". -/
def IsDeposit (tx : Transaction) : Bool :=
  decide (tx.Input0 = ZeroInput) && decide (tx.Input1 = ZeroInput)

/-- Modelled from the spec: the signature clause of `WellFormed(tx)`, "both
signature slots are present whenever the corresponding input is non-zero". -/
def SigsPresent (tx : Transaction) : Bool :=
  (decide (tx.Input0 = ZeroInput) || decide (tx.Sig0 ≠ [])) &&
  (decide (tx.Input1 = ZeroInput) || decide (tx.Sig1 ≠ []))

/-! ## `tester/deposit/integration.go`: building the deposit -/

/-- The function `createTestTransaction(input0, output0)`. -/
def createTestTransaction (input0 : Option Input) (output0 : Option Output) :
    Transaction :=
  { Input0 := input0
    Input1 := ZeroInput
    Sig0 := []
    Sig1 := []
    Output0 := output0
    Output1 := ZeroOutput
    Fee := some 0
    BlkNum := 0
    TxIdx := 0 }

/-- The function `createDepositTx(userAddress, value)`.  The address parser
`common.HexToAddress` belongs to an outside library and is passed in. -/
def createDepositTx (HexToAddress : String → Address) (userAddress : String)
    (value : Int) : Transaction :=
  createTestTransaction
    ZeroInput
    (some { NewOwner := HexToAddress userAddress, Amount := NewInt value })

/-- The function `exists(str)`: `len(str) > 0`, the length counted in bytes. -/
def existsStr (str : String) : Bool :=
  decide (str.utf8ByteSize > 0)

/-! ## Collaborators and traces -/

/-- An `*ecdsa.PrivateKey` is pointed to by a token; the code only passes it on. -/
structure PrivateKey where
  id : Nat
  deriving DecidableEq, Repr

/-- What `util.GetFromKeyStore` hands back: a record with a `PrivateKey`
field (a `*ecdsa.PrivateKey`). -/
structure KeyWrapper where
  PrivateKey : Option PrivateKey
  deriving DecidableEq, Repr

/-- A root-chain client handle, a token the code only passes on. -/
structure PlasmaClient where
  id : Nat
  deriving DecidableEq, Repr

/-- A `leveldb.DB`, a token the code only passes on. -/
structure DB where
  id : Nat
  deriving DecidableEq, Repr

/-- A `PlasmaStorage` value, a token the code only passes on. -/
structure PlasmaStorage where
  id : Nat
  deriving DecidableEq, Repr

/-- A non-nil Go `error`, kept as its message. -/
structure Error where
  msg : String
  deriving DecidableEq, Repr

/-- The type `opt.Options`, with the one field the code sets.  `new(opt.Options)`
is the record with every field zero, so `ReadOnly` starts as `false`. -/
structure Options where
  ReadOnly : Bool := false
  deriving DecidableEq, Repr

/-- The method `(*opt.Options).GetReadOnly`: `false` on nil, else the field. -/
def Options.GetReadOnly (o : Option Options) : Bool :=
  match o with
  | none => false
  | some v => v.ReadOnly

/-- The `*cli.Context`, as far as the code reads it: the lookup
`c.GlobalString(name)`. -/
structure Context where
  GlobalString : String → String

/-- What the collaborators outside the two files hand back.  Each is a
function of the arguments of the call. -/
structure World where
  /-- The library function `common.HexToAddress`. -/
  HexToAddress : String → Address
  /-- The library function `path.Join`, at two elements. -/
  pathJoin : String → String → String
  /-- The call `util.ToPrivateKeyECDSA(privateKey)`. -/
  ToPrivateKeyECDSA : String → Option PrivateKey
  /-- The call `util.GetFromKeyStore(addr, dir, file, passphrase)`. -/
  GetFromKeyStore : String → String → String → String → Option KeyWrapper
  /-- The call `CreatePlasmaClient(nodeURL, contractAddress)`. -/
  CreatePlasmaClient : String → String → Option PlasmaClient
  /-- The call `leveldb.OpenFile(loc, o)`: the handle and the error. -/
  OpenFile : String → Option Options → Option DB × Option Error
  /-- The call `NewStorage(level, client)`. -/
  NewStorage : Option DB → Option PlasmaClient → Option PlasmaStorage

/-- One call to a collaborator, with its arguments.  Log lines keep the
message text; the operands printed after it are left out. -/
inductive Event where
  | ToPrivateKeyECDSA (privateKey : String)
  | GetFromKeyStore (userAddress keystoreDir keystoreFile signPassphrase : String)
  | Fatalln (msg : String)
  | Println (msg : String)
  | Printf (format : String) (arg : String)
  | CreatePlasmaClient (nodeURL contractAddress : String)
  | CurrentChildBlock (plasma : Option PlasmaClient) (userAddress : String)
  | Deposit (plasma : Option PlasmaClient) (key : Option PrivateKey)
      (userAddress : String) (value : Int) (t : Transaction)
  | Sleep (seconds : Nat)
  | OpenFile (loc : String) (o : Option Options)
  | Close (db : Option DB)
  deriving DecidableEq, Repr

/-- How a run of a function ends: it returns, the process exits
(`log.Fatalln` ends in `os.Exit(1)`), or a nil pointer is dereferenced. -/
inductive Outcome where
  | returned
  | exited (code : Nat)
  | panicked
  deriving DecidableEq, Repr

/-- The state of `privateKeyECDSA` after the `if`/`else if` in
`IntegrationTest`: the run has panicked on `keyWrapper.PrivateKey` with a nil
`keyWrapper`, or the variable holds a (possibly nil) pointer. -/
inductive Loaded where
  | nilDeref
  | key (privateKeyECDSA : Option PrivateKey)
  deriving DecidableEq, Repr

/-! ## `db/db.go` -/

/-- The function `CreateStorage(location, client)`: the calls it makes, and
the triple it returns. -/
def CreateStorage (w : World) (location : String) (client : Option PlasmaClient) :
    List Event × (Option DB × Option PlasmaStorage × Option Error) :=
  let loc := w.pathJoin location "db"
  let opened := w.OpenFile loc none
  let level := opened.1
  let err := opened.2
  if err.isSome then
    ([.Printf "Creating database in %s." loc, .OpenFile loc none],
      (none, none, err))
  else
    ([.Printf "Creating database in %s." loc, .OpenFile loc none,
        .Printf "Creating database in %s." loc],
      (level, w.NewStorage level client, none))

/-! ## `tester/deposit/integration.go`: the run -/

/-- The function `IntegrationTest(c)`: the calls it makes, in order, and how
the run ends.  Collaborator calls are taken to return, with one exception.
The deferred `db.Close()` runs when the function body is done, so it is the
last call of a run that gets that far, and the handle it is called on is
recorded as it is, nil or not.  `(*leveldb.DB).Close` reads a field of its
receiver first, so on a nil handle the run ends in a nil-pointer panic; on a
handle that is not nil the call is taken to return. -/
def IntegrationTest (w : World) (c : Context) : List Event × Outcome :=
  let contractAddress := c.GlobalString "contract-addr"
  let nodeURL := c.GlobalString "node-url"
  let keystoreDir := c.GlobalString "keystore-dir"
  let keystoreFile := c.GlobalString "keystore-file"
  let userAddress := c.GlobalString "user-address"
  let privateKey := c.GlobalString "private-key"
  let signPassphrase := c.GlobalString "sign-passphrase"
  let dburl := c.GlobalString "db"
  let loading : List Event × Loaded :=
    if existsStr userAddress && existsStr privateKey then
      ([.ToPrivateKeyECDSA privateKey], .key (w.ToPrivateKeyECDSA privateKey))
    else if existsStr keystoreDir && existsStr keystoreFile && existsStr userAddress then
      ([.GetFromKeyStore userAddress keystoreDir keystoreFile signPassphrase],
        match w.GetFromKeyStore userAddress keystoreDir keystoreFile signPassphrase with
        | none => .nilDeref
        | some keyWrapper => .key keyWrapper.PrivateKey)
    else
      ([], .key none)
  match loading with
  | (calls, .nilDeref) => (calls, .panicked)
  | (calls, .key none) =>
      (calls ++ [.Fatalln "Private key ecdsa not found"], .exited 1)
  | (calls, .key (some privateKeyECDSA)) =>
      let plasma := w.CreatePlasmaClient nodeURL contractAddress
      let depositValue : Int := 1000000000
      let t := createDepositTx w.HexToAddress userAddress depositValue
      let loc := w.pathJoin dburl "db"
      let o : Options := { ReadOnly := true }
      let opened := w.OpenFile loc (some o)
      let db := opened.1
      let err := opened.2
      (calls ++
        [.CreatePlasmaClient nodeURL contractAddress,
         .CurrentChildBlock plasma userAddress,
         .Println "Blockheight before deposit:",
         .Deposit plasma (some privateKeyECDSA) userAddress 1000000000 t,
         .Sleep 1,
         .CurrentChildBlock plasma userAddress,
         .Println "Blockheight after deposit:",
         .Println (toString (Options.GetReadOnly (some o))),
         .OpenFile loc (some o)] ++
        (if err.isSome then [.Println "shit %s"] else []) ++
        [.Close db],
       if db.isNone then .panicked else .returned)

/-! ## Observations on transactions and traces -/

/-- No input or output slot of the transaction is nil. -/
def NoNilSlot (tx : Transaction) : Bool :=
  tx.Input0.isSome && tx.Input1.isSome && tx.Output0.isSome && tx.Output1.isSome

/-- The `leveldb.OpenFile` calls of a trace, in order: location and options. -/
def opened (tr : List Event) : List (String × Option Options) :=
  tr.filterMap fun e =>
    match e with
    | .OpenFile loc o => some (loc, o)
    | _ => none

/-- The handles `Close` is called on in a trace, in order. -/
def closed (tr : List Event) : List (Option DB) :=
  tr.filterMap fun e =>
    match e with
    | .Close db => some db
    | _ => none

/-- The trace has a call to `util.ToPrivateKeyECDSA`. -/
def usesRawKey (tr : List Event) : Bool :=
  tr.any fun e =>
    match e with
    | .ToPrivateKeyECDSA _ => true
    | _ => false

/-- The trace has a call to `util.GetFromKeyStore`. -/
def usesKeystore (tr : List Event) : Bool :=
  tr.any fun e =>
    match e with
    | .GetFromKeyStore _ _ _ _ => true
    | _ => false

/-- The trace has a call to `Deposit` or builds up to one (`CreatePlasmaClient`
comes first on that path). -/
def reachesDeposit (tr : List Event) : Bool :=
  tr.any fun e =>
    match e with
    | .Deposit _ _ _ _ _ => true
    | .CreatePlasmaClient _ _ => true
    | _ => false

/-! ## Sample worlds and contexts -/

/-- A world where every loader finds a key and the store opens exactly when
`openOk` says so. -/
def sampleWorld (openOk : Bool) : World :=
  { HexToAddress := fun _ => { val := 2748 }
    pathJoin := fun a b => a ++ "/" ++ b
    ToPrivateKeyECDSA := fun _ => some { id := 1 }
    GetFromKeyStore := fun _ _ _ _ => some { PrivateKey := some { id := 2 } }
    CreatePlasmaClient := fun _ _ => some { id := 3 }
    OpenFile := fun _ _ =>
      if openOk then (some { id := 4 }, none)
      else (none, some { msg := "file missing" })
    NewStorage := fun _ _ => some { id := 5 } }

/-- A context that sets the four options named, and no other. -/
def sampleContext (userAddress privateKey keystoreDir keystoreFile : String) :
    Context :=
  { GlobalString := fun name =>
      if name = "user-address" then userAddress
      else if name = "private-key" then privateKey
      else if name = "keystore-dir" then keystoreDir
      else if name = "keystore-file" then keystoreFile
      else if name = "db" then "data"
      else "" }

end Plasma

namespace Plasma

/-! ## Helper facts -/

/-- A string has a positive byte length exactly when it is not the empty string. -/
theorem existsStr_iff_ne_empty (s : String) : existsStr s = true ↔ s ≠ "" := by
  rcases s with ⟨cs⟩
  cases cs with
  | nil => simp [existsStr, String.utf8ByteSize, String.utf8ByteSize.go]
  | cons ch rest =>
      have hpos : 0 < ch.utf8Size := Char.utf8Size_pos ch
      have hne : (String.mk (ch :: rest)) ≠ "" := by
        intro h
        have := congrArg String.data h
        simp at this
      simp [existsStr, String.utf8ByteSize, String.utf8ByteSize.go, hne]
      omega

/-- The three ways a run of `IntegrationTest` starts: with the raw-key loader,
with the keystore loader, or with the abort. -/
theorem IntegrationTest_start (w : World) (c : Context) :
    (existsStr (c.GlobalString "user-address") = true ∧
      existsStr (c.GlobalString "private-key") = true ∧
      ∃ rest, (IntegrationTest w c).1 =
          .ToPrivateKeyECDSA (c.GlobalString "private-key") :: rest ∧
        usesRawKey rest = false ∧ usesKeystore rest = false) ∨
    (¬ (existsStr (c.GlobalString "user-address") = true ∧
        existsStr (c.GlobalString "private-key") = true) ∧
      (existsStr (c.GlobalString "keystore-dir") = true ∧
        existsStr (c.GlobalString "keystore-file") = true ∧
        existsStr (c.GlobalString "user-address") = true) ∧
      ∃ rest, (IntegrationTest w c).1 =
          .GetFromKeyStore (c.GlobalString "user-address")
            (c.GlobalString "keystore-dir") (c.GlobalString "keystore-file")
            (c.GlobalString "sign-passphrase") :: rest ∧
        usesRawKey rest = false ∧ usesKeystore rest = false) ∨
    (¬ (existsStr (c.GlobalString "user-address") = true ∧
        existsStr (c.GlobalString "private-key") = true) ∧
      ¬ (existsStr (c.GlobalString "keystore-dir") = true ∧
        existsStr (c.GlobalString "keystore-file") = true ∧
        existsStr (c.GlobalString "user-address") = true) ∧
      IntegrationTest w c = ([.Fatalln "Private key ecdsa not found"], .exited 1)) := by
  unfold IntegrationTest
  dsimp only
  by_cases h1 : (existsStr (c.GlobalString "user-address") &&
      existsStr (c.GlobalString "private-key")) = true
  · rw [if_pos h1]
    have h1p := h1
    rw [Bool.and_eq_true] at h1p
    refine Or.inl ⟨h1p.1, h1p.2, ?_⟩
    rcases w.ToPrivateKeyECDSA (c.GlobalString "private-key") with _ | key <;>
      cases (w.OpenFile (w.pathJoin (c.GlobalString "db") "db")
        (some { ReadOnly := true })).2 <;>
      simp [usesRawKey, usesKeystore]
  · rw [if_neg h1]
    have h1n : ¬ (existsStr (c.GlobalString "user-address") = true ∧
        existsStr (c.GlobalString "private-key") = true) := by
      rw [← Bool.and_eq_true]; exact h1
    by_cases h2 : (existsStr (c.GlobalString "keystore-dir") &&
        existsStr (c.GlobalString "keystore-file") &&
        existsStr (c.GlobalString "user-address")) = true
    · rw [if_pos h2]
      have h2p := h2
      rw [Bool.and_eq_true, Bool.and_eq_true] at h2p
      refine Or.inr (Or.inl ⟨h1n, ⟨h2p.1.1, h2p.1.2, h2p.2⟩, ?_⟩)
      rcases w.GetFromKeyStore (c.GlobalString "user-address")
        (c.GlobalString "keystore-dir") (c.GlobalString "keystore-file")
        (c.GlobalString "sign-passphrase") with _ | ⟨⟨_ | key2⟩⟩ <;>
        cases (w.OpenFile (w.pathJoin (c.GlobalString "db") "db")
          (some { ReadOnly := true })).2 <;>
        simp [usesRawKey, usesKeystore]
    · rw [if_neg h2]
      have h2n : ¬ (existsStr (c.GlobalString "keystore-dir") = true ∧
          existsStr (c.GlobalString "keystore-file") = true ∧
          existsStr (c.GlobalString "user-address") = true) := by
        rw [← and_assoc, ← Bool.and_eq_true, ← Bool.and_eq_true]; exact h2
      exact Or.inr (Or.inr ⟨h1n, h2n, rfl⟩)

/-! ## The deposit transaction -/

/-- C1: for every address string and every value, `createDepositTx` builds a
deposit transaction: both inputs are the zero-input sentinel (so `IsDeposit`
holds), `Output0` is the output owned by the parsed address with the value as
amount, and both signature slots are empty. -/
theorem createDepositTx_is_deposit (HexToAddress : String → Address)
    (userAddress : String) (value : Int) :
    (createDepositTx HexToAddress userAddress value).Input0 = ZeroInput ∧
    (createDepositTx HexToAddress userAddress value).Input1 = ZeroInput ∧
    IsDeposit (createDepositTx HexToAddress userAddress value) = true ∧
    (createDepositTx HexToAddress userAddress value).Output0 =
      some { NewOwner := HexToAddress userAddress, Amount := some value } ∧
    (createDepositTx HexToAddress userAddress value).Sig0 = [] ∧
    (createDepositTx HexToAddress userAddress value).Sig1 = [] := by
  refine ⟨rfl, rfl, ?_, rfl, rfl, rfl⟩
  simp [IsDeposit, createDepositTx, createTestTransaction]

/-- C3, as stated, fails: with a first input that is not the zero input
(block 1, transaction 0, output 0) the result still has an empty `Sig0`. -/
theorem createTestTransaction_unsigned_spend :
    (createTestTransaction (some { BlkNum := 1, TxIdx := 0, OutIdx := 0 })
        ZeroOutput).Input0 ≠ ZeroInput ∧
    (createTestTransaction (some { BlkNum := 1, TxIdx := 0, OutIdx := 0 })
        ZeroOutput).Sig0 = [] ∧
    SigsPresent (createTestTransaction (some { BlkNum := 1, TxIdx := 0, OutIdx := 0 })
        ZeroOutput) = false := by
  decide

/-- C3, amended: both signature slots of the result are always empty.  The
second input is always the zero input, so no signature is asked for in
`Sig1`; the signature rule holds for the result exactly when the first
argument is the zero input. -/
theorem createTestTransaction_sigs (input0 : Option Input) (output0 : Option Output) :
    (createTestTransaction input0 output0).Sig0 = [] ∧
    (createTestTransaction input0 output0).Sig1 = [] ∧
    (createTestTransaction input0 output0).Input1 = ZeroInput ∧
    (SigsPresent (createTestTransaction input0 output0) = true ↔ input0 = ZeroInput) := by
  simp [createTestTransaction, SigsPresent]

/-- C4, as stated, fails: with nil arguments the first input slot and the
first output slot of the result are nil. -/
theorem createTestTransaction_nil_slot :
    (createTestTransaction none none).Input0 = none ∧
    (createTestTransaction none none).Output0 = none ∧
    NoNilSlot (createTestTransaction none none) = false := by
  decide

/-- C4, amended: the first slots are exactly the arguments, the second slots
hold the sentinels and are never nil, and no slot of the result is nil
exactly when neither argument is nil. -/
theorem createTestTransaction_shape (input0 : Option Input) (output0 : Option Output) :
    (createTestTransaction input0 output0).Input0 = input0 ∧
    (createTestTransaction input0 output0).Output0 = output0 ∧
    (createTestTransaction input0 output0).Input1 = ZeroInput ∧
    (createTestTransaction input0 output0).Output1 = ZeroOutput ∧
    (createTestTransaction input0 output0).Input1 ≠ none ∧
    (createTestTransaction input0 output0).Output1 ≠ none ∧
    (NoNilSlot (createTestTransaction input0 output0) = true
      ↔ input0 ≠ none ∧ output0 ≠ none) := by
  refine ⟨rfl, rfl, rfl, rfl, ?_, ?_, ?_⟩
  · simp [createTestTransaction, ZeroInput]
  · simp [createTestTransaction, ZeroOutput]
  · cases input0 <;> cases output0 <;>
      simp [NoNilSlot, createTestTransaction, ZeroInput, ZeroOutput]

/-- C6: every transaction built by `createTestTransaction`, and so by
`createDepositTx`, is unconfirmed: `BlkNum` and `TxIdx` are both zero. -/
theorem createTestTransaction_unconfirmed (input0 : Option Input)
    (output0 : Option Output) (HexToAddress : String → Address)
    (userAddress : String) (value : Int) :
    (createTestTransaction input0 output0).BlkNum = 0 ∧
    (createTestTransaction input0 output0).TxIdx = 0 ∧
    (createDepositTx HexToAddress userAddress value).BlkNum = 0 ∧
    (createDepositTx HexToAddress userAddress value).TxIdx = 0 :=
  ⟨rfl, rfl, rfl, rfl⟩

/-- C7: every transaction built by `createTestTransaction`, and so by
`createDepositTx`, has a fee that is present, equal to zero, and so
non-negative. -/
theorem createTestTransaction_fee_zero (input0 : Option Input)
    (output0 : Option Output) (HexToAddress : String → Address)
    (userAddress : String) (value : Int) :
    (createTestTransaction input0 output0).Fee ≠ none ∧
    (∃ fee, (createTestTransaction input0 output0).Fee = some fee ∧ fee = 0 ∧ 0 ≤ fee) ∧
    (createDepositTx HexToAddress userAddress value).Fee ≠ none ∧
    (∃ fee, (createDepositTx HexToAddress userAddress value).Fee = some fee ∧
      fee = 0 ∧ 0 ≤ fee) := by
  simp [createDepositTx, createTestTransaction]

/-! ## Opening the store -/

/-- C5: `CreateStorage` calls `leveldb.OpenFile` once, at `path.Join(location, "db")`
with nil options, whether or not the call fails.  If the call fails with error
`e`, the result is (nil handle, nil storage, `e`).  If it succeeds, the error
returned is nil, the handle returned is the one opened, and the storage
returned is `NewStorage` of that very handle and the client. -/
theorem CreateStorage_surfaces_open_error (w : World) (location : String)
    (client : Option PlasmaClient) :
    opened (CreateStorage w location client).1 = [(w.pathJoin location "db", none)] ∧
    (∀ e, (w.OpenFile (w.pathJoin location "db") none).2 = some e →
      (CreateStorage w location client).2 = (none, none, some e)) ∧
    ((w.OpenFile (w.pathJoin location "db") none).2 = none →
      (CreateStorage w location client).2.2.2 = none ∧
      (CreateStorage w location client).2.1 =
        (w.OpenFile (w.pathJoin location "db") none).1 ∧
      (CreateStorage w location client).2.2.1 =
        w.NewStorage (CreateStorage w location client).2.1 client) := by
  refine ⟨?_, ?_, ?_⟩
  · unfold CreateStorage
    cases h : (w.OpenFile (w.pathJoin location "db") none).2 <;>
      simp [h, opened]
  · intro e h
    simp [CreateStorage, h]
  · intro h
    simp [CreateStorage, h]

/-- C5 at two sample worlds: one where the store fails to open, one where it
opens. -/
theorem CreateStorage_surfaces_open_error_witness :
    (CreateStorage (sampleWorld false) "data" none).2 =
      (none, none, some { msg := "file missing" }) ∧
    (CreateStorage (sampleWorld true) "data" none).2.2.2 = none ∧
    (CreateStorage (sampleWorld true) "data" none).2.1 = some { id := 4 } ∧
    (CreateStorage (sampleWorld true) "data" none).2.2.1 =
      (sampleWorld true).NewStorage (CreateStorage (sampleWorld true) "data" none).2.1
        none :=
  ⟨(CreateStorage_surfaces_open_error (sampleWorld false) "data" none).2.1
      { msg := "file missing" } rfl,
   (CreateStorage_surfaces_open_error (sampleWorld true) "data" none).2.2 rfl⟩

/-- C8: with `d` the value of the `db` option, `CreateStorage(d, _)` opens
`path.Join(d, "db")` (with nil options), and every run of `IntegrationTest`
in which a key is loaded, from the raw private key or from the keystore,
opens that same location, once, with options whose `ReadOnly` is true,
whatever `leveldb.OpenFile` hands back. -/
theorem IntegrationTest_opens_CreateStorage_location (w : World) (c : Context)
    (client : Option PlasmaClient) (key : PrivateKey)
    (hkey :
      (existsStr (c.GlobalString "user-address") = true ∧
        existsStr (c.GlobalString "private-key") = true ∧
        w.ToPrivateKeyECDSA (c.GlobalString "private-key") = some key) ∨
      (¬ (existsStr (c.GlobalString "user-address") = true ∧
          existsStr (c.GlobalString "private-key") = true) ∧
        existsStr (c.GlobalString "keystore-dir") = true ∧
        existsStr (c.GlobalString "keystore-file") = true ∧
        existsStr (c.GlobalString "user-address") = true ∧
        w.GetFromKeyStore (c.GlobalString "user-address")
          (c.GlobalString "keystore-dir") (c.GlobalString "keystore-file")
          (c.GlobalString "sign-passphrase") = some { PrivateKey := some key })) :
    opened (CreateStorage w (c.GlobalString "db") client).1 =
      [(w.pathJoin (c.GlobalString "db") "db", none)] ∧
    opened (IntegrationTest w c).1 =
      [(w.pathJoin (c.GlobalString "db") "db", some { ReadOnly := true })] ∧
    (opened (IntegrationTest w c).1).map (fun call => Options.GetReadOnly call.2) =
      [true] ∧
    (opened (IntegrationTest w c).1).map (fun call => call.1) =
      (opened (CreateStorage w (c.GlobalString "db") client).1).map
        (fun call => call.1) := by
  have hcs : opened (CreateStorage w (c.GlobalString "db") client).1 =
      [(w.pathJoin (c.GlobalString "db") "db", none)] := by
    unfold CreateStorage
    cases h : (w.OpenFile (w.pathJoin (c.GlobalString "db") "db") none).2 <;>
      simp [h, opened]
  have hit : opened (IntegrationTest w c).1 =
      [(w.pathJoin (c.GlobalString "db") "db", some { ReadOnly := true })] := by
    unfold IntegrationTest
    dsimp only
    rcases hkey with ⟨hu, hp, hk⟩ | ⟨hraw, hd, hf, hu, hk⟩
    · cases (w.OpenFile (w.pathJoin (c.GlobalString "db") "db")
        (some { ReadOnly := true })).2 <;>
        simp [hu, hp, hk, opened]
    · have hp : existsStr (c.GlobalString "private-key") = false := by
        cases h : existsStr (c.GlobalString "private-key")
        · rfl
        · exact absurd ⟨hu, h⟩ hraw
      cases (w.OpenFile (w.pathJoin (c.GlobalString "db") "db")
        (some { ReadOnly := true })).2 <;>
        simp [hu, hp, hd, hf, hk, opened]
  refine ⟨hcs, hit, ?_, ?_⟩
  · rw [hit]; rfl
  · rw [hit, hcs]; rfl

/-- C8 at two sample runs: the key comes from the raw private key and the
store fails to open; the key comes from the keystore and the store opens.
Both open `data/db` read-only, the location `CreateStorage` opens. -/
theorem IntegrationTest_opens_CreateStorage_location_witness :
    (opened (CreateStorage (sampleWorld false) "data" none).1 = [("data/db", none)] ∧
      opened (IntegrationTest (sampleWorld false) (sampleContext "0xabc" "k" "" "")).1 =
        [("data/db", some { ReadOnly := true })]) ∧
    (opened (CreateStorage (sampleWorld true) "data" none).1 = [("data/db", none)] ∧
      opened (IntegrationTest (sampleWorld true) (sampleContext "0xabc" "" "d" "f")).1 =
        [("data/db", some { ReadOnly := true })]) :=
  ⟨⟨(IntegrationTest_opens_CreateStorage_location (sampleWorld false)
        (sampleContext "0xabc" "k" "" "") none { id := 1 }
        (Or.inl (by decide))).1,
    (IntegrationTest_opens_CreateStorage_location (sampleWorld false)
        (sampleContext "0xabc" "k" "" "") none { id := 1 }
        (Or.inl (by decide))).2.1⟩,
   ⟨(IntegrationTest_opens_CreateStorage_location (sampleWorld true)
        (sampleContext "0xabc" "" "d" "f") none { id := 2 }
        (Or.inr (by decide))).1,
    (IntegrationTest_opens_CreateStorage_location (sampleWorld true)
        (sampleContext "0xabc" "" "d" "f") none { id := 2 }
        (Or.inr (by decide))).2.1⟩⟩

/-! ## Choosing the signing key -/

/-- C9: `exists(s)` is true exactly when `len(s) > 0`.  The raw private key
is loaded exactly when user-address and private-key are both non-empty; the
keystore is consulted exactly when that is not so and keystore-dir,
keystore-file and user-address are all non-empty; the run is the single call
`log.Fatalln` followed by exit exactly when neither holds.  With an empty
user-address the run is that abort, and no deposit is built or submitted. -/
theorem IntegrationTest_key_source (w : World) (c : Context) :
    (∀ s, existsStr s = true ↔ 0 < s.utf8ByteSize) ∧
    (usesRawKey (IntegrationTest w c).1 = true ↔
      c.GlobalString "user-address" ≠ "" ∧ c.GlobalString "private-key" ≠ "") ∧
    (usesKeystore (IntegrationTest w c).1 = true ↔
      ¬ (c.GlobalString "user-address" ≠ "" ∧ c.GlobalString "private-key" ≠ "") ∧
      c.GlobalString "keystore-dir" ≠ "" ∧ c.GlobalString "keystore-file" ≠ "" ∧
      c.GlobalString "user-address" ≠ "") ∧
    (IntegrationTest w c = ([.Fatalln "Private key ecdsa not found"], .exited 1) ↔
      ¬ (c.GlobalString "user-address" ≠ "" ∧ c.GlobalString "private-key" ≠ "") ∧
      ¬ (c.GlobalString "keystore-dir" ≠ "" ∧ c.GlobalString "keystore-file" ≠ "" ∧
        c.GlobalString "user-address" ≠ "")) ∧
    (c.GlobalString "user-address" = "" →
      IntegrationTest w c = ([.Fatalln "Private key ecdsa not found"], .exited 1) ∧
      reachesDeposit (IntegrationTest w c).1 = false) := by
  refine ⟨fun s => by simp [existsStr], ?_⟩
  have hne : ∀ s : String, s = "" ↔ existsStr s = false := by
    intro s
    have := existsStr_iff_ne_empty s
    cases h : existsStr s <;> simp_all
  simp only [ne_eq, hne, Bool.not_eq_false]
  rcases IntegrationTest_start w c with
    ⟨hu, hp, rest, htr, hr, hk⟩ | ⟨hraw, ⟨hd, hf, hu⟩, rest, htr, hr, hk⟩ | ⟨hraw, hks, hab⟩
  · have hno : IntegrationTest w c ≠
        ([.Fatalln "Private key ecdsa not found"], .exited 1) := by
      intro h
      have h1 := congrArg Prod.fst h
      rw [htr] at h1
      simp at h1
    refine ⟨?_, ?_, ?_, ?_⟩
    · simp [htr, usesRawKey, hu, hp]
    · have : usesKeystore (IntegrationTest w c).1 = false := by
        rw [htr]; simpa [usesKeystore] using hk
      simp [this, hu, hp]
    · simp [hno, hu, hp]
    · intro h; rw [h] at hu; cases hu
  · have hno : IntegrationTest w c ≠
        ([.Fatalln "Private key ecdsa not found"], .exited 1) := by
      intro h
      have h1 := congrArg Prod.fst h
      rw [htr] at h1
      simp at h1
    refine ⟨?_, ?_, ?_, ?_⟩
    · have : usesRawKey (IntegrationTest w c).1 = false := by
        rw [htr]; simpa [usesRawKey] using hr
      rw [this]
      constructor
      · intro h; cases h
      · intro h; exact absurd h hraw
    · simp [htr, usesKeystore, hd, hf, hu]
      simpa [hu] using hraw
    · simp [hno, hd, hf, hu]
    · intro h; rw [h] at hu; cases hu
  · refine ⟨?_, ?_, ?_, ?_⟩
    · rw [hab]
      constructor
      · intro h; simp [usesRawKey] at h
      · intro h; exact absurd h hraw
    · rw [hab]
      constructor
      · intro h; simp [usesKeystore] at h
      · intro h; exact absurd h.2 hks
    · exact ⟨fun _ => ⟨hraw, hks⟩, fun _ => hab⟩
    · intro _
      refine ⟨hab, ?_⟩
      rw [hab]
      simp [reachesDeposit]

/-- C9 at a sample run: user-address is empty while private-key, keystore-dir
and keystore-file are all set; the run aborts with no deposit. -/
theorem IntegrationTest_key_source_witness :
    IntegrationTest (sampleWorld true) (sampleContext "" "k" "d" "f") =
      ([.Fatalln "Private key ecdsa not found"], .exited 1) ∧
    reachesDeposit (IntegrationTest (sampleWorld true) (sampleContext "" "k" "d" "f")).1
      = false :=
  (IntegrationTest_key_source (sampleWorld true) (sampleContext "" "k" "d" "f")).2.2.2.2
    (by decide)

/-! ## Closing the store -/

/-- Every `leveldb.OpenFile` call of a run of `IntegrationTest` is matched by
a `Close` on the handle that call handed back, whatever the error was. -/
theorem IntegrationTest_closes_what_was_opened (w : World) (c : Context) :
    closed (IntegrationTest w c).1 =
      (opened (IntegrationTest w c).1).map fun call => (w.OpenFile call.1 call.2).1 := by
  unfold IntegrationTest
  dsimp only
  rcases w.ToPrivateKeyECDSA (c.GlobalString "private-key") with _ | key <;>
  rcases w.GetFromKeyStore (c.GlobalString "user-address")
    (c.GlobalString "keystore-dir") (c.GlobalString "keystore-file")
    (c.GlobalString "sign-passphrase") with _ | ⟨⟨_ | key2⟩⟩ <;>
  cases existsStr (c.GlobalString "user-address") <;>
  cases existsStr (c.GlobalString "private-key") <;>
  cases existsStr (c.GlobalString "keystore-dir") <;>
  cases existsStr (c.GlobalString "keystore-file") <;>
  cases (w.OpenFile (w.pathJoin (c.GlobalString "db") "db")
    (some { ReadOnly := true })).2 <;>
  simp [closed, opened]

/-- C10 fails on the code: in a run with user-address and private-key set
where `leveldb.OpenFile` fails (nil handle, non-nil error), the error is
logged, `Close` is still called, on the nil handle, and the run ends in a
nil-pointer panic. -/
theorem IntegrationTest_closes_nil_handle :
    (sampleWorld false).OpenFile "data/db" (some { ReadOnly := true }) =
      (none, some { msg := "file missing" }) ∧
    opened (IntegrationTest (sampleWorld false) (sampleContext "0xabc" "k" "" "")).1 =
      [("data/db", some { ReadOnly := true })] ∧
    Event.Println "shit %s" ∈
      (IntegrationTest (sampleWorld false) (sampleContext "0xabc" "k" "" "")).1 ∧
    closed (IntegrationTest (sampleWorld false) (sampleContext "0xabc" "k" "" "")).1 =
      [none] ∧
    (IntegrationTest (sampleWorld false) (sampleContext "0xabc" "k" "" "")).2 =
      .panicked := by
  decide

end Plasma
